import Mathlib

/-!
Verification development for the POSE orbital simulator.

The Rust sources (`bodies.rs`, `sim_cpu.rs`, `innout.rs`, `types.rs`,
`main.rs`) are embedded shallowly: `f32`/`f64` arithmetic is idealised as
real (ℝ) or rational (ℚ) arithmetic, structs become Lean structures, and
the trait dispatch of `KeplerModel`/`Simobj` becomes pattern matching on
closed inductive types.  Names follow the source where Lean permits.
-/

namespace POSE

/-! ## Vector math (`sim_cpu.rs` lines 98–108 and the ndarray operations) -/

/-- A 3-component vector of reals: the shallow embedding of the
`ndarray::Array1<f64>` 3-vectors used by `sim_cpu.rs`. -/
@[ext] structure Vec3 where
  x : ℝ
  y : ℝ
  z : ℝ

noncomputable def Vec3.add (a b : Vec3) : Vec3 := ⟨a.x + b.x, a.y + b.y, a.z + b.z⟩

noncomputable def Vec3.sub (a b : Vec3) : Vec3 := ⟨a.x - b.x, a.y - b.y, a.z - b.z⟩

/-- Scalar multiplication, `array * scalar` on ndarray vectors. -/
noncomputable def Vec3.smul (c : ℝ) (a : Vec3) : Vec3 := ⟨c * a.x, c * a.y, c * a.z⟩

/-- `x.dot(x)` on ndarray vectors. -/
noncomputable def Vec3.dot (a b : Vec3) : ℝ := a.x * b.x + a.y * b.y + a.z * b.z

def Vec3.zero : Vec3 := ⟨0, 0, 0⟩

/-- `fn l2_norm(x: &ArrayView1<f64>) -> f64 { x.dot(x).sqrt() }` -/
noncomputable def l2_norm (v : Vec3) : ℝ := Real.sqrt (v.dot v)

/-- `fn normalize(x, l2_norm_precalc: Option<f64>)`: divides every component
by the precomputed norm when given, otherwise by `l2_norm x`.  No guard
against a zero norm exists in the source. -/
noncomputable def normalize (v : Vec3) (l2_norm_precalc : Option ℝ) : Vec3 :=
  let norm := l2_norm_precalc.getD (l2_norm v)
  ⟨v.x / norm, v.y / norm, v.z / norm⟩

/-! ## Constants (`bodies.rs` lines 4–7, `sim_cpu.rs` line 9) -/

noncomputable def METERS_PER_ASTRONOMICAL_UNIT : ℝ := 1.4959787e11

noncomputable def METERS_PER_EARTH_EQUATORIAL_RADIUS : ℝ := 6378140.0

noncomputable def EARTH_RADII_PER_ASTRONOMICAL_UNIT : ℝ :=
  METERS_PER_ASTRONOMICAL_UNIT / METERS_PER_EARTH_EQUATORIAL_RADIUS

/-- Gravitational constant, `const G: f64 = 6.674e-11` in `sim_cpu.rs`. -/
noncomputable def G : ℝ := 6.674e-11

/-! ## Degree-based trigonometry

Modelled from the spec: the macros `sin_deg!`, `cos_deg!`, `atan2_deg!`
live in `macros.rs`, which is absent from the sources; per spec §4.C/§4.D
"trig functions take degree inputs", so they are sine/cosine/atan2 of an
angle given in degrees. -/

noncomputable def sin_deg (x : ℝ) : ℝ := Real.sin (x * (Real.pi / 180))

noncomputable def cos_deg (x : ℝ) : ℝ := Real.cos (x * (Real.pi / 180))

/-- Two-argument arctangent in degrees; `Complex.arg ⟨x, y⟩` is the
standard atan2 of (y, x) in radians. -/
noncomputable def atan2_deg (y x : ℝ) : ℝ := (180 / Real.pi) * Complex.arg ⟨x, y⟩

/-! ## `CartesianCoords` (`bodies.rs` lines 113–143) -/

/-- `CartesianCoords`: a position tagged with the unit flag (`is_meters`)
and the frame flag (`heliocentric`, false = geocentric). -/
@[ext] structure CartesianCoords where
  is_meters : Bool
  heliocentric : Bool
  xh : ℝ
  yh : ℝ
  zh : ℝ

/-- `to_meters`: when the coords are not yet in meters, set the flag and
multiply every component by the literal `149600000000f32` used in the
source (note: not the `METERS_PER_ASTRONOMICAL_UNIT` constant). -/
noncomputable def CartesianCoords.to_meters (c : CartesianCoords) : CartesianCoords :=
  if c.is_meters then c
  else { c with is_meters := true,
                xh := c.xh * 149600000000,
                zh := c.zh * 149600000000,
                yh := c.yh * 149600000000 }

/-- `to_au`: when the coords are in meters, clear the flag and divide every
component by the literal `149600000000f32`. -/
noncomputable def CartesianCoords.to_au (c : CartesianCoords) : CartesianCoords :=
  if c.is_meters then
    { c with is_meters := false,
             xh := c.xh / 149600000000,
             zh := c.zh / 149600000000,
             yh := c.yh / 149600000000 }
  else c

/-! ## Solar objects and the Kepler model (`bodies.rs` lines 72–354) -/

/-- `SolarAttr`: radius in meters, mass in kilograms. -/
structure SolarAttr where
  radius : ℝ
  mass : ℝ

/-- `Solarobj`: closed tagged variant {Sun, Earth, Moon}, each with a
`SolarAttr`. -/
inductive Solarobj where
  | sun (attr : SolarAttr)
  | earth (attr : SolarAttr)
  | moon (attr : SolarAttr)

/-- Modelled from the spec: `get_mass_kg` is an accessor of the newer
`bodies.rs` (absent from the sources); it returns the mass attribute of
the solar object. -/
def Solarobj.get_mass_kg : Solarobj → ℝ
  | .sun a => a.mass
  | .earth a => a.mass
  | .moon a => a.mass

/-- `PlanetPS`: orbital-element model (`bodies.rs` lines 85–99). -/
structure PlanetPS where
  solartype : Solarobj
  coords : CartesianCoords
  n0 : ℝ
  nc : ℝ
  i0 : ℝ
  ic : ℝ
  w0 : ℝ
  wc : ℝ
  a0 : ℝ
  ac : ℝ
  e0 : ℝ
  ec : ℝ
  m0 : ℝ
  mc : ℝ
  mag_base : ℝ
  mag_phase_factor : ℝ
  mag_nonlinear_factor : ℝ
  mag_nonlinear_exponent : ℝ

/-- `fn mean_anomaly(&self, day) = self.m0 + (day * self.mc)` -/
noncomputable def PlanetPS.mean_anomaly (b : PlanetPS) (day : ℝ) : ℝ := b.m0 + day * b.mc

/-- `fn node_longitude(&self, day) = self.n0 + (day * self.nc)` -/
noncomputable def PlanetPS.node_longitude (b : PlanetPS) (day : ℝ) : ℝ := b.n0 + day * b.nc

/-- `fn perihelion(&self, day) = self.w0 + (day * self.wc)` -/
noncomputable def PlanetPS.perihelion (b : PlanetPS) (day : ℝ) : ℝ := b.w0 + day * b.wc

/-- `kepler_utilities::mean_anomaly_of_sun` -/
noncomputable def mean_anomaly_of_sun (day : ℝ) : ℝ := 356.0470 + 0.9856002585 * day

/-- `kepler_utilities::sun_argument_of_perihelion` -/
noncomputable def sun_argument_of_perihelion (day : ℝ) : ℝ := 282.9404 + 4.70935e-5 * day

/-- `kepler_utilities::ecliptic_lat_lon`: (longitude, latitude) in degrees. -/
noncomputable def ecliptic_lat_lon (xh yh zh : ℝ) : ℝ × ℝ :=
  (atan2_deg yh xh, atan2_deg zh (Real.sqrt (xh * xh + yh * yh)))

/-- `kepler_utilities::lunar_pertub` (`bodies.rs` lines 198–257), translated
line for line. -/
noncomputable def lunar_pertub (body : PlanetPS) (xh yh zh day : ℝ) : CartesianCoords :=
  let ms := mean_anomaly_of_sun day
  let ws := sun_argument_of_perihelion day
  let ls := ms + ws
  let mm := body.mean_anomaly day
  let nm := body.node_longitude day
  let wm := body.perihelion day
  let lm := mm + wm + nm
  let d := lm - ls
  let f := lm - nm
  let delta_long :=
    -1.274 * sin_deg (mm - 2 * d) +
     0.658 * sin_deg (2 * d) -
     0.186 * sin_deg ms -
     0.059 * sin_deg (2 * mm - 2 * d) -
     0.057 * sin_deg (mm - 2 * d + ms) +
     0.053 * sin_deg (mm + 2 * d) +
     0.046 * sin_deg (2 * d - ms) +
     0.041 * sin_deg (mm - ms) -
     0.035 * sin_deg d -
     0.031 * sin_deg (mm + ms) -
     0.015 * sin_deg (2 * f - 2 * d) +
     0.011 * sin_deg (mm - 4 * d)
  let delta_lat :=
    -0.173 * sin_deg (f - 2 * d) -
     0.055 * sin_deg (mm - f - 2 * d) -
     0.046 * sin_deg (mm + f - 2 * d) +
     0.033 * sin_deg (f + 2 * d) +
     0.017 * sin_deg (2 * mm + f)
  let delta_radius := -0.58 * cos_deg (mm - 2 * d) - 0.46 * cos_deg (2 * d)
  let lonecl := (ecliptic_lat_lon xh yh zh).1 + delta_long
  let latecl := (ecliptic_lat_lon xh yh zh).2 + delta_lat
  let r := Real.sqrt (xh * xh + yh * yh + zh * zh) + delta_radius / EARTH_RADII_PER_ASTRONOMICAL_UNIT
  let coslon := cos_deg lonecl
  let sinlon := sin_deg lonecl
  let coslat := cos_deg latecl
  let sinlat := sin_deg latecl
  { xh := r * coslon * coslat, yh := r * sinlon * coslat, zh := r * sinlat,
    is_meters := false, heliocentric := false }

/-- `KeplerModel::perturb` as implemented for `PlanetPS` (`bodies.rs` lines
327–332): the lunar perturbation for `Moon`, identity (heliocentric AU)
otherwise. -/
noncomputable def PlanetPS.perturb (b : PlanetPS) (xh yh zh day : ℝ) : CartesianCoords :=
  match b.solartype with
  | .moon _ => lunar_pertub b xh yh zh day
  | _ => { xh := xh, yh := yh, zh := zh, is_meters := false, heliocentric := true }

/-- The Moon's orbital elements exactly as constructed by `make_moon`
(`bodies.rs` lines 487–510), before the initial coordinate update. -/
noncomputable def moon_params : PlanetPS :=
  { solartype := .moon { radius := 1738.1, mass := 0.07346e24 },
    coords := { xh := 0, yh := 0, zh := 0, is_meters := false, heliocentric := false },
    n0 := 125.1228, nc := -0.0529538083,
    i0 := 5.1454, ic := 0.0,
    w0 := 318.0634, wc := 0.1643573223,
    a0 := 60.2666 / EARTH_RADII_PER_ASTRONOMICAL_UNIT, ac := 0.0,
    e0 := 0.054900, ec := 0.0,
    m0 := 115.3654, mc := 13.0649929509,
    mag_base := 0.23,
    mag_phase_factor := 0.026,
    mag_nonlinear_factor := 4.0e-9,
    mag_nonlinear_exponent := 4 }

/-! ### Spec-side lunar perturbation (for the refinement claim C8)

These definitions follow the words of spec §4.D steps 6–7 and are compared
against the source-derived `lunar_pertub`. -/

/-- Δλ from the spec's lunar perturbation series (arguments: Moon mean
anomaly M, Sun mean anomaly Mₛ, mean elongation D, argument of latitude F). -/
noncomputable def spec_delta_long (m ms d f : ℝ) : ℝ :=
  -1.274 * sin_deg (m - 2 * d) + 0.658 * sin_deg (2 * d) - 0.186 * sin_deg ms -
   0.059 * sin_deg (2 * m - 2 * d) - 0.057 * sin_deg (m - 2 * d + ms) +
   0.053 * sin_deg (m + 2 * d) + 0.046 * sin_deg (2 * d - ms) +
   0.041 * sin_deg (m - ms) - 0.035 * sin_deg d - 0.031 * sin_deg (m + ms) -
   0.015 * sin_deg (2 * f - 2 * d) + 0.011 * sin_deg (m - 4 * d)

/-- Δβ from the spec's lunar perturbation series. -/
noncomputable def spec_delta_lat (m d f : ℝ) : ℝ :=
  -0.173 * sin_deg (f - 2 * d) - 0.055 * sin_deg (m - f - 2 * d) -
   0.046 * sin_deg (m + f - 2 * d) + 0.033 * sin_deg (f + 2 * d) +
   0.017 * sin_deg (2 * m + f)

/-- Δr = −0.58·cos(M−2D) − 0.46·cos(2D), in Earth radii, from the spec. -/
noncomputable def spec_delta_r (m d : ℝ) : ℝ :=
  -0.58 * cos_deg (m - 2 * d) - 0.46 * cos_deg (2 * d)

/-- The spec's Moon perturbation pipeline (§4.D steps 6–7): convert the
orbital-plane Cartesian position to ecliptic longitude/latitude/radius, add
(Δλ, Δβ, Δr / EARTH_RADII_PER_AU), and re-project to Cartesian geocentric
AU coordinates. -/
noncomputable def moon_perturb_spec (body : PlanetPS) (xh yh zh day : ℝ) : CartesianCoords :=
  let ms := mean_anomaly_of_sun day
  let ls := ms + sun_argument_of_perihelion day
  let m := body.mean_anomaly day
  let n := body.node_longitude day
  let w := body.perihelion day
  let lm := m + w + n
  let d := lm - ls
  let f := lm - n
  let lon := (ecliptic_lat_lon xh yh zh).1 + spec_delta_long m ms d f
  let lat := (ecliptic_lat_lon xh yh zh).2 + spec_delta_lat m d f
  let r := Real.sqrt (xh * xh + yh * yh + zh * zh) +
           spec_delta_r m d / EARTH_RADII_PER_ASTRONOMICAL_UNIT
  { is_meters := false, heliocentric := false,
    xh := r * cos_deg lon * cos_deg lat,
    yh := r * sin_deg lon * cos_deg lat,
    zh := r * sin_deg lat }

/-! ## Environment and simulation objects

Modelled from the spec: the `Environment` struct and the newer `Simobj`
accessors (`get_coords_as_ndarray`, `get_velocity_as_ndarray`,
`distance_to`, `get_solar_objects`) belong to the newer `bodies.rs`,
which is absent from the sources.  Per spec §3/§4.E, the environment holds
the current simulation time and an ordered list of solar bodies; index 0
is the distinguished centric index; `distance_to` returns the vector from
the small body to the indexed solar body, in meters, in the centric
(geocentric) frame.  Each stored record therefore carries its coordinates
already in the centric frame in meters. -/

/-- One stored solar body: its `Solarobj` tag (with attributes) and its
coordinates in meters in the centric frame. -/
structure SolarBodyRec where
  obj : Solarobj
  coords : Vec3

/-- Modelled from the spec (§3, §4.E): the simulation environment. -/
structure Environment where
  solar_objs : List SolarBodyRec
  sim_time_s : ℝ

/-- A small body (spacecraft or debris) as the perturbation engine sees it:
id, position (meters, centric frame) and velocity (m/s). -/
@[ext] structure SimObj where
  id : ℕ
  pos : Vec3
  vel : Vec3

/-- Modelled from the spec (§4.E): `distance_to(small_body, planet_idx)`
returns the vector from the small body to the indexed solar body (`none`
when the index is out of range; the source `.expect`s in that case). -/
noncomputable def Environment.distance_to (env : Environment) (sim : SimObj) (k : ℕ) : Option Vec3 :=
  (env.solar_objs.get? k).map (fun b => b.coords.sub sim.pos)

/-- Mass lookup used by `newton_gravitational_field`; out-of-range access
panics in the source (`.expect`), modelled by a zero default. -/
noncomputable def massAt (env : Environment) (k : ℕ) : ℝ :=
  ((env.solar_objs.get? k).map (fun b => b.obj.get_mass_kg)).getD 0

/-! ## The perturbation engine (`sim_cpu.rs` lines 200–306) -/

/-- `newton_gravitational_field` (`sim_cpu.rs` lines 205–222): unit vector
of the distance vector, scaled by `-G * (planet_mass_kg / l2_dist^2)`.
No distance threshold or error path exists. -/
noncomputable def newton_gravitational_field (distance_vector : Vec3) (planet_idx : ℕ)
    (env : Environment) : Vec3 :=
  let l2_dist := l2_norm distance_vector
  let unit_vector := normalize distance_vector (some l2_dist)
  unit_vector.smul (-G * (massAt env planet_idx / l2_dist ^ 2))

/-- The body of the `for planet_idx in 0..len` loop of `calc_planet_perturb`
(`sim_cpu.rs` lines 226–271): the gravitational acceleration from solar
body `k`, with the centric differential correction applied exactly when
the body is the Sun and `k ≠ 0`. -/
noncomputable def accelAt (env : Environment) (sim : SimObj) (k : ℕ) : Vec3 :=
  let dv := (env.distance_to sim k).getD Vec3.zero
  let grav_accel := newton_gravitational_field dv k env
  match env.solar_objs.get? k with
  | some b =>
    match b.obj with
    | .sun _ =>
      if k ≠ 0 then
        let centric_coords := ((env.solar_objs.get? 0).map (fun c => c.coords)).getD Vec3.zero
        let centric_sun_dist_vector := b.coords.sub centric_coords
        grav_accel.sub (newton_gravitational_field centric_sun_dist_vector k env)
      else grav_accel
    | _ => grav_accel
  | none => grav_accel

/-- `PerturbationDelta` (`sim_cpu.rs` lines 11–17). -/
structure PerturbationDelta where
  id : ℕ
  sim_time : ℝ
  acceleration_x_mpss : ℝ
  acceleration_y_mpss : ℝ
  acceleration_z_mpss : ℝ

/-- `enum Perturbation` (`sim_cpu.rs` lines 31–35). -/
inductive Perturbation where
  | solarObject (obj : Solarobj) (delta : PerturbationDelta)

/-- The acceleration components carried by a `Perturbation` record. -/
def Perturbation.ax : Perturbation → ℝ
  | .solarObject _ d => d.acceleration_x_mpss

def Perturbation.ay : Perturbation → ℝ
  | .solarObject _ d => d.acceleration_y_mpss

def Perturbation.az : Perturbation → ℝ
  | .solarObject _ d => d.acceleration_z_mpss

/-- The `perturbation_vec` built by the loop of `calc_planet_perturb`. -/
noncomputable def perturbation_vec (env : Environment) (sim : SimObj) : List Vec3 :=
  (List.range env.solar_objs.length).map (accelAt env sim)

/-- The `final_perturb_vec` of `calc_planet_perturb` (`sim_cpu.rs` lines
289–303): one `Perturbation::SolarObject` record per solar body, zipped
against the per-body acceleration vectors. -/
noncomputable def final_perturb_vec (env : Environment) (sim : SimObj) : List Perturbation :=
  ((perturbation_vec env sim).zip env.solar_objs).map fun p =>
    Perturbation.solarObject p.2.obj
      { id := sim.id, sim_time := env.sim_time_s,
        acceleration_x_mpss := p.1.x,
        acceleration_y_mpss := p.1.y,
        acceleration_z_mpss := p.1.z }

/-- `calc_planet_perturb` (`sim_cpu.rs` lines 200–306): the summed
`PerturbationDelta` over all solar bodies, together with the per-body
records when `do_return_perturb` is set. -/
noncomputable def calc_planet_perturb (env : Environment) (sim : SimObj)
    (do_return_perturb : Bool) : PerturbationDelta × Option (List Perturbation) :=
  let sum_perturb : PerturbationDelta :=
    { id := sim.id, sim_time := env.sim_time_s,
      acceleration_x_mpss := ((perturbation_vec env sim).map (fun v => v.x)).sum,
      acceleration_y_mpss := ((perturbation_vec env sim).map (fun v => v.y)).sum,
      acceleration_z_mpss := ((perturbation_vec env sim).map (fun v => v.z)).sum }
  if do_return_perturb then (sum_perturb, some (final_perturb_vec env sim))
  else (sum_perturb, none)

/-- The combined acceleration of `apply_perturbations` (`sim_cpu.rs` lines
140–149): the summation over the single gravity `PerturbationDelta`. -/
noncomputable def combined_acceleration (env : Environment) (sim : SimObj) : Vec3 :=
  let d := (calc_planet_perturb env sim true).1
  ⟨d.acceleration_x_mpss, d.acceleration_y_mpss, d.acceleration_z_mpss⟩

/-- The state update of `apply_perturbations` (`sim_cpu.rs` lines 150–166):
`velocity_delta = a·Δt`, the velocity is updated first, and the position
update uses the already-updated velocity. -/
noncomputable def apply_perturbations (env : Environment) (step_time_s : ℝ)
    (sim : SimObj) : SimObj :=
  let velocity_delta := (combined_acceleration env sim).smul step_time_s
  let updated_sim_obj_velocity := sim.vel.add velocity_delta
  let position_delta := updated_sim_obj_velocity.smul step_time_s
  let updated_sim_obj_coords := sim.pos.add position_delta
  { sim with vel := updated_sim_obj_velocity, pos := updated_sim_obj_coords }

/-- `N` ticks of the per-body update of the propagator loop. -/
noncomputable def propagateN (env : Environment) (step_time_s : ℝ) :
    ℕ → SimObj → SimObj
  | 0, sim => sim
  | n + 1, sim => propagateN env step_time_s n (apply_perturbations env step_time_s sim)

/-! ### Spec-side coincident-bodies check (for claim C2)

Modelled from the spec (§4.F failure semantics, §7 *CoincidentBodies*):
if the distance to any solar body is below one meter, the step must abort
with a fatal error naming the two bodies.  The source has no such path;
this definition exists only to be compared with the source behaviour. -/

/-- The error kind demanded by the spec. -/
inductive SimError where
  | coincidentBodies (sim_obj_id : ℕ) (planet_idx : ℕ)

/-- The spec-mandated checked variant of the per-body acceleration: error
below one meter of separation, otherwise the value the engine computes. -/
noncomputable def accelAtChecked (env : Environment) (sim : SimObj) (k : ℕ) :
    Except SimError Vec3 :=
  if l2_norm ((env.distance_to sim k).getD Vec3.zero) < 1 then
    .error (.coincidentBodies sim.id k)
  else
    .ok (accelAt env sim k)

/-! ## The propagator loop guard (`sim_cpu.rs` lines 317–322, 340)

The solar-refresh test and the time advance use only exact comparisons and
additions, embedded over ℚ. -/

/-- The propagator state fields read by the solar-refresh guard. -/
structure PropState where
  sim_time_s : ℚ
  last_day_update_s : ℚ

/-- The simulation parameters read by the loop. -/
structure SimulationParameters where
  sim_solar_step : ℚ
  sim_time_step : ℚ

/-- One tick of the `simulate` loop, restricted to the solar-refresh
decision and the time bookkeeping: emits (and refreshes) exactly when
`sim_time_s > last_day_update_s + sim_solar_step`; the refresh sets
`last_day_update_s` to the current time (modelled from the spec §4.E:
`refresh()` sets the last update time to `sim_time_s`), and the tick ends
with `sim_time_s += sim_time_step`. -/
def simulate_tick (env : PropState) (p : SimulationParameters) : Bool × PropState :=
  if env.sim_time_s > env.last_day_update_s + p.sim_solar_step then
    (true, { sim_time_s := env.sim_time_s + p.sim_time_step,
             last_day_update_s := env.sim_time_s })
  else
    (false, { env with sim_time_s := env.sim_time_s + p.sim_time_step })

/-! ## Input loading (`innout.rs` lines 14–33, `bodies.rs` lines 26–70) -/

/-- The per-body JSON payload: `#[serde(skip_deserializing)] id` means the
id field never comes from the file, so a deserialised record carries the
`u32` default id 0. -/
structure Spacecraft where
  id : ℕ
  x_dis : ℚ
  y_dis : ℚ
  z_dis : ℚ
  x_vel : ℚ
  y_vel : ℚ
  z_vel : ℚ

structure Debris where
  id : ℕ
  x_dis : ℚ
  y_dis : ℚ
  z_dis : ℚ
  x_vel : ℚ
  y_vel : ℚ
  z_vel : ℚ

/-- A raw body as it appears in the input file (no id field). -/
structure RawBody where
  x_dis : ℚ
  y_dis : ℚ
  z_dis : ℚ
  x_vel : ℚ
  y_vel : ℚ
  z_vel : ℚ

/-- The deserialised input file: a date string plus debris and spacecraft
arrays (`bodies::Objects` as used by `innout.rs`; the spec's input format
of §6). -/
structure Objects where
  date : String
  debris : List RawBody
  spacecraft : List RawBody

/-- Deserialisation of one debris record: every field from the file except
`id`, which serde skips, leaving the `u32` default 0. -/
def deser_debris (r : RawBody) : Debris :=
  { id := 0, x_dis := r.x_dis, y_dis := r.y_dis, z_dis := r.z_dis,
    x_vel := r.x_vel, y_vel := r.y_vel, z_vel := r.z_vel }

def deser_spacecraft (r : RawBody) : Spacecraft :=
  { id := 0, x_dis := r.x_dis, y_dis := r.y_dis, z_dis := r.z_dis,
    x_vel := r.x_vel, y_vel := r.y_vel, z_vel := r.z_vel }

/-- `SimobjT`: the boxed trait object, here a closed sum. -/
inductive SimobjT where
  | debris (d : Debris)
  | spacecraft (s : Spacecraft)

/-- `Simobj::get_id`. -/
def SimobjT.get_id : SimobjT → ℕ
  | .debris d => d.id
  | .spacecraft s => s.id

/-- `parse_inpt` (`innout.rs` lines 14–33): pushes every deserialised
debris record, then every deserialised spacecraft record, onto the
simulation body list.  No id is ever assigned. -/
def parse_inpt (objs : Objects) : List SimobjT :=
  objs.debris.map (fun e => SimobjT.debris (deser_debris e)) ++
  objs.spacecraft.map (fun e => SimobjT.spacecraft (deser_spacecraft e))

/-! ## Concrete inputs used to instantiate the theorems below -/

/-- A two-body environment: the centric body (Earth) at index 0 and the
Sun at index 1, with coordinates chosen to have rational norms. -/
noncomputable def earth_rec_c1 : SolarBodyRec :=
  ⟨.earth ⟨6.3781e6, 5.9722e24⟩, ⟨0, 0, 0⟩⟩

noncomputable def sun_rec_c1 : SolarBodyRec :=
  ⟨.sun ⟨6.957e8, 1.9891e30⟩, ⟨4, 0, 0⟩⟩

noncomputable def env_c1 : Environment := ⟨[earth_rec_c1, sun_rec_c1], 0⟩

noncomputable def sim_c1 : SimObj := ⟨0, ⟨1, 0, 0⟩, ⟨0, 0, 0⟩⟩

/-- A one-body environment whose single body sits half a meter from the
small body (a sub-meter separation). -/
noncomputable def earth_rec_c2 : SolarBodyRec := ⟨.earth ⟨6.3781e6, 1e10⟩, ⟨3/2, 0, 0⟩⟩

noncomputable def env_c2 : Environment := ⟨[earth_rec_c2], 0⟩

noncomputable def sim_c2 : SimObj := ⟨5, ⟨1, 0, 0⟩, ⟨0, 0, 0⟩⟩

/-- An environment with no solar bodies: every summed perturbation over it
is zero, giving a concrete zero-net-acceleration scenario. -/
def empty_env : Environment := ⟨[], 0⟩

noncomputable def sim_c6 : SimObj := ⟨3, ⟨1, 2, 3⟩, ⟨4, 5, 6⟩⟩

/-- An input file with two debris records and one spacecraft record. -/
def failing_objects : Objects :=
  { date := "2000-01-01T00:00:00",
    debris := [⟨1, 2, 3, 4, 5, 6⟩, ⟨7, 8, 9, 10, 11, 12⟩],
    spacecraft := [⟨13, 14, 15, 16, 17, 18⟩] }

/-! # Theorems -/

/-- C5 counterexample: converting the AU coordinate 1 to meters yields
149600000000, not the frozen constant AU = 1.4959787e11; the conversion
does not multiply by the frozen constant. -/
theorem to_meters_frozen_au_counterexample :
    (CartesianCoords.to_meters ⟨false, false, 1, 0, 0⟩).xh = 149600000000 ∧
    (CartesianCoords.to_meters ⟨false, false, 1, 0, 0⟩).xh ≠
      METERS_PER_ASTRONOMICAL_UNIT * 1 := by
  constructor
  · simp [CartesianCoords.to_meters]
  · simp [CartesianCoords.to_meters, METERS_PER_ASTRONOMICAL_UNIT]
    norm_num

/-- C5 (amended): every conversion of `CartesianCoords` between
astronomical units and meters multiplies or divides each component by the
constant 1.496e11 (the literal `149600000000f32` of the source), not by
the frozen constant 1.4959787e11. -/
theorem to_meters_to_au_use_rounded_au (hel : Bool) (x y z : ℝ) :
    CartesianCoords.to_meters ⟨false, hel, x, y, z⟩ =
      ⟨true, hel, x * 149600000000, y * 149600000000, z * 149600000000⟩ ∧
    CartesianCoords.to_au ⟨true, hel, x, y, z⟩ =
      ⟨false, hel, x / 149600000000, y / 149600000000, z / 149600000000⟩ := by
  constructor <;> simp [CartesianCoords.to_meters, CartesianCoords.to_au]

/-- C9: converting AU→meters→AU (and meters→AU→meters) returns the
original coordinates exactly (hence within relative error 10⁻⁶), and both
conversions are idempotent: applying the same conversion twice equals
applying it once. -/
theorem au_meter_roundtrip_and_idempotent :
    (∀ (hel : Bool) (x y z : ℝ),
        CartesianCoords.to_au (CartesianCoords.to_meters ⟨false, hel, x, y, z⟩) =
          ⟨false, hel, x, y, z⟩) ∧
    (∀ (hel : Bool) (x y z : ℝ),
        CartesianCoords.to_meters (CartesianCoords.to_au ⟨true, hel, x, y, z⟩) =
          ⟨true, hel, x, y, z⟩) ∧
    (∀ (hel : Bool) (x y z : ℝ),
        |(CartesianCoords.to_au (CartesianCoords.to_meters ⟨false, hel, x, y, z⟩)).xh - x| ≤
          1e-6 * |x|) ∧
    (∀ c : CartesianCoords,
        CartesianCoords.to_meters (CartesianCoords.to_meters c) =
          CartesianCoords.to_meters c) ∧
    (∀ c : CartesianCoords,
        CartesianCoords.to_au (CartesianCoords.to_au c) = CartesianCoords.to_au c) := by
  have hK : (149600000000 : ℝ) ≠ 0 := by norm_num
  have h1 : ∀ (hel : Bool) (x y z : ℝ),
      CartesianCoords.to_au (CartesianCoords.to_meters ⟨false, hel, x, y, z⟩) =
        ⟨false, hel, x, y, z⟩ := by
    intro hel x y z
    simp [CartesianCoords.to_meters, CartesianCoords.to_au]
  refine ⟨h1, ?_, ?_, ?_, ?_⟩
  · intro hel x y z
    simp [CartesianCoords.to_meters, CartesianCoords.to_au]
  · intro hel x y z
    rw [h1 hel x y z]
    simp
    positivity
  · intro c
    by_cases h : c.is_meters <;> simp [CartesianCoords.to_meters, h]
  · intro c
    by_cases h : c.is_meters <;> simp [CartesianCoords.to_au, h]

/-- C7 counterexample: with `sim_time_s = 10`, `last_day_update_s = 0` and
a refresh interval of 10 seconds, `sim_time_s − last_day_update_s ≥
solar_refresh_seconds` holds, yet the tick does not emit solar records or
refresh the ephemeris: the source guard is strict. -/
theorem solar_refresh_boundary_counterexample :
    (simulate_tick ⟨10, 0⟩ ⟨10, 1⟩).1 = false ∧ (10 : ℚ) - 0 ≥ 10 := by
  constructor
  · simp only [simulate_tick]
    rw [if_neg (by norm_num)]
  · norm_num

/-- C7 (amended): in every tick of the propagator loop, the solar-object
records are emitted and the ephemeris is refreshed if and only if
`sim_time_s − last_solar_update_s` is strictly greater than the refresh
interval at the start of that tick. -/
theorem solar_refresh_iff_strictly_greater (env : PropState) (p : SimulationParameters) :
    (simulate_tick env p).1 = true ↔
      env.sim_time_s - env.last_day_update_s > p.sim_solar_step := by
  by_cases h : env.sim_time_s > env.last_day_update_s + p.sim_solar_step
  · simp [simulate_tick, h]
    linarith
  · simp [simulate_tick, h]
    push_neg at h
    linarith

/-- C4: `parse_inpt` never assigns ids — every loaded small body keeps the
serde-skipped default id 0; in particular the 2-debris/1-spacecraft input
yields ids [0, 0, 0] instead of the claimed [0, 1, 2]. -/
theorem parse_inpt_ids_all_zero :
    (∀ objs : Objects,
        (parse_inpt objs).map SimobjT.get_id =
          List.replicate (objs.debris.length + objs.spacecraft.length) 0) ∧
    (parse_inpt failing_objects).map SimobjT.get_id = [0, 0, 0] ∧
    [0, 0, 0] ≠ [0, 1, 2] := by
  refine ⟨?_, by rfl, by decide⟩
  intro objs
  simp only [parse_inpt, List.map_append, List.map_map]
  have hd : SimobjT.get_id ∘ (fun e => SimobjT.debris (deser_debris e)) =
      fun _ => (0 : ℕ) := rfl
  have hs : SimobjT.get_id ∘ (fun e => SimobjT.spacecraft (deser_spacecraft e)) =
      fun _ => (0 : ℕ) := rfl
  rw [hd, hs, List.map_const', List.map_const', ← List.replicate_add]

/-- Helper: one integration step under zero net acceleration moves the
position by one velocity·Δt and leaves the velocity unchanged. -/
theorem apply_perturbations_zero_accel (env : Environment) (dt : ℝ) (s : SimObj)
    (h : combined_acceleration env s = Vec3.zero) :
    apply_perturbations env dt s =
      { s with pos := s.pos.add (s.vel.smul dt) } := by
  simp only [apply_perturbations, h]
  ext <;> simp [Vec3.add, Vec3.smul, Vec3.zero]

/-- C6: the integrator updates velocity first and then position from the
already-updated velocity; consequently under zero net acceleration the
position after N ticks is exactly the initial position plus N·Δt times the
initial velocity (and the velocity is unchanged). -/
theorem symplectic_euler_order_and_drift (env : Environment) (dt : ℝ) (sim : SimObj)
    (N : ℕ) (hzero : ∀ s : SimObj, combined_acceleration env s = Vec3.zero) :
    (∀ (env' : Environment) (dt' : ℝ) (s : SimObj),
        (apply_perturbations env' dt' s).vel =
          s.vel.add ((combined_acceleration env' s).smul dt') ∧
        (apply_perturbations env' dt' s).pos =
          s.pos.add ((s.vel.add ((combined_acceleration env' s).smul dt')).smul dt')) ∧
    (propagateN env dt N sim).vel = sim.vel ∧
    (propagateN env dt N sim).pos = sim.pos.add (sim.vel.smul ((N : ℝ) * dt)) := by
  refine ⟨fun env' dt' s => ⟨rfl, rfl⟩, ?_⟩
  induction N generalizing sim with
  | zero =>
    refine ⟨rfl, ?_⟩
    ext <;> simp [propagateN, Vec3.add, Vec3.smul]
  | succ n ih =>
    have hstep := apply_perturbations_zero_accel env dt sim (hzero sim)
    have h1 : propagateN env dt (n + 1) sim =
        propagateN env dt n (apply_perturbations env dt sim) := rfl
    rw [h1, hstep]
    rcases ih { sim with pos := sim.pos.add (sim.vel.smul dt) } with ⟨hv, hp⟩
    refine ⟨hv, ?_⟩
    rw [hp]
    ext <;> simp [Vec3.add, Vec3.smul] <;> ring

/-- C6 witness: in the concrete environment with no solar bodies the net
acceleration is identically zero, and after 5 ticks of step 2 the body at
(1,2,3) with velocity (4,5,6) sits exactly at the linear-drift position. -/
theorem symplectic_euler_order_and_drift_witness :
    (∀ s : SimObj, combined_acceleration empty_env s = Vec3.zero) ∧
    (propagateN empty_env 2 5 sim_c6).vel = sim_c6.vel ∧
    (propagateN empty_env 2 5 sim_c6).pos =
      sim_c6.pos.add (sim_c6.vel.smul (((5 : ℕ) : ℝ) * 2)) := by
  have hz : ∀ s : SimObj, combined_acceleration empty_env s = Vec3.zero := by
    intro s
    simp [combined_acceleration, calc_planet_perturb, perturbation_vec, empty_env, Vec3.zero]
  exact ⟨hz, (symplectic_euler_order_and_drift empty_env 2 sim_c6 5 hz).2⟩

/-- C10: the summed `PerturbationDelta` returned by `calc_planet_perturb`
has acceleration components exactly equal to the componentwise sums of the
per-body acceleration vectors carried by the emitted `Perturbation`
records. -/
theorem summed_perturbation_consistent (env : Environment) (sim : SimObj) :
    (calc_planet_perturb env sim true).2 = some (final_perturb_vec env sim) ∧
    (calc_planet_perturb env sim true).1.acceleration_x_mpss =
      ((final_perturb_vec env sim).map Perturbation.ax).sum ∧
    (calc_planet_perturb env sim true).1.acceleration_y_mpss =
      ((final_perturb_vec env sim).map Perturbation.ay).sum ∧
    (calc_planet_perturb env sim true).1.acceleration_z_mpss =
      ((final_perturb_vec env sim).map Perturbation.az).sum := by
  have hlen : (perturbation_vec env sim).length ≤ env.solar_objs.length := by
    simp [perturbation_vec]
  have hfst : ∀ g : Vec3 → ℝ,
      (((perturbation_vec env sim).zip env.solar_objs).map
          fun p : Vec3 × SolarBodyRec => g p.1) =
        (perturbation_vec env sim).map g := by
    intro g
    rw [show (fun p : Vec3 × SolarBodyRec => g p.1) = g ∘ Prod.fst from rfl,
      ← List.map_map, List.map_fst_zip _ _ hlen]
  have hx : (final_perturb_vec env sim).map Perturbation.ax =
      (perturbation_vec env sim).map (fun v => v.x) := by
    simp only [final_perturb_vec, List.map_map]
    exact hfst fun v => v.x
  have hy : (final_perturb_vec env sim).map Perturbation.ay =
      (perturbation_vec env sim).map (fun v => v.y) := by
    simp only [final_perturb_vec, List.map_map]
    exact hfst fun v => v.y
  have hz : (final_perturb_vec env sim).map Perturbation.az =
      (perturbation_vec env sim).map (fun v => v.z) := by
    simp only [final_perturb_vec, List.map_map]
    exact hfst fun v => v.z
  exact ⟨by simp [calc_planet_perturb],
    by rw [hx]; simp [calc_planet_perturb],
    by rw [hy]; simp [calc_planet_perturb],
    by rw [hz]; simp [calc_planet_perturb]⟩

/-- C1: whenever the solar body at a non-centric index k (k ≠ 0) is the
Sun, its contribution is the differential acceleration — the field at the
small body minus the field computed from the centric-to-Sun vector — and
this per-body contribution is exactly what the summed delta adds up and
what the emitted records carry. -/
theorem sun_perturb_is_differential (env : Environment) (sim : SimObj) (k : ℕ)
    (b : SolarBodyRec) (attr : SolarAttr)
    (hk : env.solar_objs.get? k = some b) (hsun : b.obj = Solarobj.sun attr)
    (h0 : k ≠ 0) :
    accelAt env sim k =
      (newton_gravitational_field ((env.distance_to sim k).getD Vec3.zero) k env).sub
        (newton_gravitational_field
          (b.coords.sub (((env.solar_objs.get? 0).map (fun c => c.coords)).getD Vec3.zero))
          k env) ∧
    (calc_planet_perturb env sim true).1.acceleration_x_mpss =
      ((List.range env.solar_objs.length).map (fun i => (accelAt env sim i).x)).sum ∧
    (final_perturb_vec env sim).map Perturbation.ax =
      (List.range env.solar_objs.length).map (fun i => (accelAt env sim i).x) := by
  refine ⟨?_, ?_, ?_⟩
  · obtain ⟨bo, bc⟩ := b
    simp only at hsun
    subst hsun
    have hk2 : env.solar_objs[k]? = some ⟨Solarobj.sun attr, bc⟩ := by
      simpa using hk
    simp [accelAt, hk, hk2, h0]
  · simp [calc_planet_perturb, perturbation_vec, List.map_map, Function.comp_def]
  · have hlen : (perturbation_vec env sim).length ≤ env.solar_objs.length := by
      simp [perturbation_vec]
    have : ((final_perturb_vec env sim).map Perturbation.ax) =
        (perturbation_vec env sim).map (fun v => v.x) := by
      simp only [final_perturb_vec, List.map_map]
      rw [show ((Perturbation.ax ∘ fun p : Vec3 × SolarBodyRec =>
            Perturbation.solarObject p.2.obj
              { id := sim.id, sim_time := env.sim_time_s,
                acceleration_x_mpss := p.1.x, acceleration_y_mpss := p.1.y,
                acceleration_z_mpss := p.1.z }) =
          ((fun v : Vec3 => v.x) ∘ Prod.fst)) from rfl,
        ← List.map_map, List.map_fst_zip _ _ hlen]
    rw [this]
    simp [perturbation_vec, List.map_map, Function.comp]

/-- C1 witness: in the two-body environment with the centric Earth at
index 0 and the Sun at index 1, the Sun's contribution to the small body
at (1,0,0) is the differential acceleration. -/
theorem sun_perturb_is_differential_witness :
    env_c1.solar_objs.get? 1 = some sun_rec_c1 ∧
    sun_rec_c1.obj = Solarobj.sun ⟨6.957e8, 1.9891e30⟩ ∧
    (1 : ℕ) ≠ 0 ∧
    accelAt env_c1 sim_c1 1 =
      (newton_gravitational_field ((env_c1.distance_to sim_c1 1).getD Vec3.zero) 1 env_c1).sub
        (newton_gravitational_field
          (sun_rec_c1.coords.sub
            (((env_c1.solar_objs.get? 0).map (fun c => c.coords)).getD Vec3.zero))
          1 env_c1) :=
  ⟨rfl, rfl, by decide,
    (sun_perturb_is_differential env_c1 sim_c1 1 sun_rec_c1 ⟨6.957e8, 1.9891e30⟩
      rfl rfl (by decide)).1⟩

/-- Helper: the norm of the concrete half-meter distance vector. -/
theorem l2_norm_half : l2_norm ⟨1 / 2, 0, 0⟩ = 1 / 2 := by
  have h : Vec3.dot ⟨1 / 2, 0, 0⟩ ⟨1 / 2, 0, 0⟩ = (1 / 2 : ℝ) ^ 2 := by
    simp [Vec3.dot]
    norm_num
  rw [l2_norm, h, Real.sqrt_sq (by norm_num)]

/-- Helper: the concrete sub-meter distance vector of the C2 scenario. -/
theorem distance_c2_eval :
    (env_c2.distance_to sim_c2 0).getD Vec3.zero = ⟨1 / 2, 0, 0⟩ := by
  simp [Environment.distance_to, env_c2, earth_rec_c2, sim_c2, Vec3.sub]
  norm_num

/-- C2 counterexample: the small body of `sim_c2` sits half a meter from
the solar body of `env_c2`; the spec-mandated check would abort with a
CoincidentBodies error naming the two bodies, but the engine silently
computes the finite Newtonian acceleration (−2.6696, 0, 0) m/s². -/
theorem no_coincident_bodies_check :
    l2_norm ((env_c2.distance_to sim_c2 0).getD Vec3.zero) < 1 ∧
    accelAtChecked env_c2 sim_c2 0 =
      Except.error (SimError.coincidentBodies 5 0) ∧
    accelAt env_c2 sim_c2 0 = ⟨-2.6696, 0, 0⟩ := by
  have hd := distance_c2_eval
  have hn : l2_norm ((env_c2.distance_to sim_c2 0).getD Vec3.zero) = 1 / 2 := by
    rw [hd, l2_norm_half]
  refine ⟨by rw [hn]; norm_num, ?_, ?_⟩
  · rw [accelAtChecked, if_pos (by rw [hn]; norm_num)]
    rfl
  · have h1 : accelAt env_c2 sim_c2 0 =
        newton_gravitational_field ((env_c2.distance_to sim_c2 0).getD Vec3.zero) 0 env_c2 :=
      rfl
    rw [h1, hd, newton_gravitational_field]
    simp only [l2_norm_half]
    simp [normalize, Vec3.smul, massAt, env_c2, earth_rec_c2, Solarobj.get_mass_kg, G]
    norm_num

/-- C2 (amended): the engine performs no coincident-body check — for any
distance vector with positive norm below one meter it silently computes
and emits the plain Newtonian acceleration −G·m·d/|d|³. -/
theorem newton_field_below_one_meter (dv : Vec3) (k : ℕ) (env : Environment)
    (hpos : 0 < l2_norm dv) (hlt : l2_norm dv < 1) :
    newton_gravitational_field dv k env =
      dv.smul (-G * massAt env k / l2_norm dv ^ 3) := by
  have hne : l2_norm dv ≠ 0 := ne_of_gt hpos
  rw [newton_gravitational_field]
  simp only [normalize, Option.getD]
  ext <;> simp [Vec3.smul] <;> field_simp <;> exact Or.inl (by ring)

/-- C2 amended-claim witness at the half-meter vector. -/
theorem newton_field_below_one_meter_witness :
    0 < l2_norm ⟨1 / 2, 0, 0⟩ ∧ l2_norm ⟨1 / 2, 0, 0⟩ < 1 ∧
    newton_gravitational_field ⟨1 / 2, 0, 0⟩ 0 env_c2 =
      Vec3.smul (-G * massAt env_c2 0 / l2_norm ⟨1 / 2, 0, 0⟩ ^ 3) ⟨1 / 2, 0, 0⟩ := by
  have h1 : (0 : ℝ) < l2_norm ⟨1 / 2, 0, 0⟩ := by rw [l2_norm_half]; norm_num
  have h2 : l2_norm ⟨1 / 2, 0, 0⟩ < 1 := by rw [l2_norm_half]; norm_num
  exact ⟨h1, h2, newton_field_below_one_meter ⟨1 / 2, 0, 0⟩ 0 env_c2 h1 h2⟩

/-- C8: the Moon position pipeline adds the lunar perturbation series
(Δλ, Δβ, Δr/EARTH_RADII_PER_AU with Δr = −0.58·cos(M−2D) − 0.46·cos(2D) in
Earth radii) in ecliptic coordinates and re-projects to Cartesian
geocentric AU coordinates, exactly as the spec-side pipeline prescribes;
the `perturb` dispatch applies it to the Moon only, leaving Sun and Earth
coordinates unchanged. -/
theorem moon_perturbation_refines_spec (body : PlanetPS) (xh yh zh day : ℝ) :
    lunar_pertub body xh yh zh day = moon_perturb_spec body xh yh zh day ∧
    (lunar_pertub body xh yh zh day).is_meters = false ∧
    (lunar_pertub body xh yh zh day).heliocentric = false ∧
    (∀ attr, body.solartype = Solarobj.moon attr →
        body.perturb xh yh zh day = lunar_pertub body xh yh zh day) ∧
    (∀ attr, body.solartype = Solarobj.sun attr →
        body.perturb xh yh zh day = ⟨false, true, xh, yh, zh⟩) ∧
    (∀ attr, body.solartype = Solarobj.earth attr →
        body.perturb xh yh zh day = ⟨false, true, xh, yh, zh⟩) := by
  refine ⟨?_, rfl, rfl, ?_, ?_, ?_⟩
  · rfl
  · intro attr h
    simp [PlanetPS.perturb, h]
  · intro attr h
    simp [PlanetPS.perturb, h]
  · intro attr h
    simp [PlanetPS.perturb, h]

/-- C8 witness: the Moon as constructed by `make_moon` is matched by the
Moon arm of `perturb`, which applies `lunar_pertub`. -/
theorem moon_perturbation_refines_spec_witness :
    moon_params.solartype = Solarobj.moon ⟨1738.1, 0.07346e24⟩ ∧
    moon_params.perturb 1 2 3 0 = lunar_pertub moon_params 1 2 3 0 :=
  ⟨rfl,
    (moon_perturbation_refines_spec moon_params 1 2 3 0).2.2.2.1 ⟨1738.1, 0.07346e24⟩ rfl⟩

end POSE
